import Mathlib

/-!
Shallow embedding of `src/scraper.py` (Yash-burad/PythonScraper).

The file models the catalogue crawl loop of `Scraper.scrape_catalogue`,
the per-page retry loop, the per-record change-detection against the
redis cache, the pure record-pairing core of `Scraper.scrape_page`, and
the `start_scraping` endpoint.

Modelling conventions:
- Network page fetches (`Scraper.scrape_page` called by the crawl loop)
  are an external effect; the crawler is parameterised by a function
  `fetch : Nat → Nat → Except String (List ScrapedProduct)` giving, for a
  page number and a 0-based attempt index within that page's retry loop,
  either the fetched records or a raised transport error
  (`requests` exceptions are uncaught in the source, hence `Except`).
- The redis cache (`cache.get` / `cache.set(ex=...)`) is modelled as an
  association list of `(key, value, expiresAt)`; a `get` at time `now`
  returns the value only while `now < expiresAt`, matching redis TTL
  expiry.  Real time is abstracted as `clock : Nat → Nat`, sampled once
  per processed record at an event counter `tick` carried in the state.
- The `while page < 10` loop is written with a structural fuel argument;
  `scrape_catalogue` supplies fuel 10, which exceeds the at most 9
  iterations the guard permits, so the fuel case never fires.
- `visitedPages` is ghost instrumentation recording the page number of
  every `scrape_page` call (one entry per HTTP request for a page URL).
-/

/-- Source line 16: `CACHE_EXPIRY = 3600  # seconds`. -/
def CACHE_EXPIRY : Nat := 3600

/-- Source lines 34-37: pydantic model `ScrapedProduct(name, price, url)`;
`url` holds the product image URL (line 94). -/
structure ScrapedProduct where
  name : String
  price : String
  url : String
deriving DecidableEq, Repr

/-- Redis key-value store with per-key expiry time: entries `(key, value, expiresAt)`. -/
abbrev Cache := List (String × String × Nat)

/-- Model of redis `cache.get(key)` at absolute time `now`: the stored value,
unless the entry has expired (redis treats an expired key as absent). -/
def cacheGet (c : Cache) (key : String) (now : Nat) : Option String :=
  match c.find? (fun e => e.1 == key) with
  | some e => if now < e.2.2 then some e.2.1 else none
  | none => none

/-- Model of redis `cache.set(key, value, ex)` at absolute time `now`:
overwrites the entry for `key` and arms a fresh expiry `now + ex`. -/
def cacheSet (c : Cache) (key value : String) (ex : Nat) (now : Nat) : Cache :=
  (key, value, now + ex) :: c.filter (fun e => e.1 != key)

/-- Source lines 30-32: pydantic `ScrapeSettings` (`max_pages`, `proxy`, both optional;
`proxy` is never read by the crawl loop). -/
structure ScrapeSettings where
  max_pages : Option Int := none
  proxy : Option String := none
deriving DecidableEq, Repr

/-- Crawl-loop state: `scraped_data` (line 61, appended at line 139), the
process-wide redis cache, the ghost log of page requests, and the event
counter used to sample the clock. -/
structure CrawlState where
  scraped_data : List ScrapedProduct
  cache : Cache
  visitedPages : List Nat
  tick : Nat
deriving DecidableEq, Repr

/-- Source lines 134-140, the per-record body of the crawl loop:

```
cache_key = f"product:{product.name}"
cached_price = cache.get(cache_key)
if cached_price is None or cached_price != product.price:
    self.scraped_data.append(product.dict())
    cache.set(cache_key, product.price, ex=CACHE_EXPIRY)
```

The record's processing moment is `clock st.tick`; `tick` advances by one
per processed record. -/
def processProduct (clock : Nat → Nat) (st : CrawlState) (product : ScrapedProduct) : CrawlState :=
  if cacheGet st.cache ("product:" ++ product.name) (clock st.tick) = none ∨
      cacheGet st.cache ("product:" ++ product.name) (clock st.tick) ≠ some product.price then
    { st with
        scraped_data := st.scraped_data ++ [product],
        cache := cacheSet st.cache ("product:" ++ product.name) product.price CACHE_EXPIRY
          (clock st.tick),
        tick := st.tick + 1 }
  else
    { st with tick := st.tick + 1 }

/-- Source lines 86-99, the pure pairing core of `Scraper.scrape_page`:
given the three facet lists extracted from the parsed page (title texts,
price texts, image `src` URLs, each in document order), Python's
`zip(titles, prices, images)` pairs them positionally, truncating to the
shortest list, and builds one `ScrapedProduct` per triple. -/
def scrape_page (titles prices images : List String) : List ScrapedProduct :=
  ((titles.zip prices).zip images).map (fun x => { name := x.1.1, price := x.1.2, url := x.2 })

/-- Source lines 126-132, the per-page retry loop:

```
retries = 3
while retries > 0:
    products = self.scrape_page(url)
    if products:
        break
    retries -= 1
    time.sleep(2)
```

`fetch i` is the result of the `i`-th `scrape_page` call (0-based);
a raised transport error propagates (there is no `try` in the source).
Returns the final value of `products` (or the error) together with the
number of `scrape_page` calls performed. -/
def retryAux (fetch : Nat → Except String (List ScrapedProduct)) :
    Nat → Nat → List ScrapedProduct → Except String (List ScrapedProduct) × Nat
  | 0, calls, products => (Except.ok products, calls)
  | r + 1, calls, _ =>
    match fetch calls with
    | Except.error e => (Except.error e, calls + 1)
    | Except.ok products =>
      if products.isEmpty then retryAux fetch r (calls + 1) products
      else (Except.ok products, calls + 1)

/-- The retry loop as entered by the crawl: `retries = 3`, no calls made yet. -/
def retryLoop (fetch : Nat → Except String (List ScrapedProduct)) :
    Except String (List ScrapedProduct) × Nat :=
  retryAux fetch 3 0 []

/-- Source line 119: `if self.settings.max_pages and page > self.settings.max_pages`.
Python truthiness: `None` and `0` are falsy, so the guard can fire only when
`max_pages` is a non-zero integer exceeded by the current page. -/
def maxPagesStop (max_pages : Option Int) (page : Nat) : Bool :=
  match max_pages with
  | none => false
  | some m => decide (m ≠ 0 ∧ (page : Int) > m)

/-- Source lines 116-145, the `while page < 10` crawl loop.  One fuel unit per
iteration; the caller supplies fuel 10 ≥ the 9 iterations the guard allows,
so the fuel-exhaustion case is unreachable.  Each iteration: stop if the
`max_pages` guard fires; otherwise run the retry loop for the page (logging
one `visitedPages` entry per `scrape_page` call), propagate a transport
error, process every fetched record through the cache filter, stop if the
page resolved empty, else advance to the next page. -/
def crawlAux (fetch : Nat → Nat → Except String (List ScrapedProduct)) (clock : Nat → Nat)
    (settings : ScrapeSettings) :
    Nat → Nat → CrawlState → CrawlState × Option String
  | 0, _, st => (st, none)
  | fuel + 1, page, st =>
    if page < 10 then
      if maxPagesStop settings.max_pages page then (st, none)
      else
        match retryAux (fetch page) 3 0 [] with
        | (Except.error e, calls) =>
          ({ st with visitedPages := st.visitedPages ++ List.replicate calls page }, some e)
        | (Except.ok products, calls) =>
          let st2 := products.foldl (processProduct clock)
            { st with visitedPages := st.visitedPages ++ List.replicate calls page }
          if products.isEmpty then (st2, none)
          else crawlAux fetch clock settings fuel (page + 1) st2
    else (st, none)

/-- Source lines 116-145: `Scraper.scrape_catalogue` starting at `page = 1`
with empty `scraped_data` and the process-wide cache in state `c0`.  The
second component is `some e` when a transport error aborted the crawl. -/
def scrape_catalogue (fetch : Nat → Nat → Except String (List ScrapedProduct))
    (clock : Nat → Nat) (settings : ScrapeSettings) (c0 : Cache) :
    CrawlState × Option String :=
  crawlAux fetch clock settings 10 1 { scraped_data := [], cache := c0, visitedPages := [], tick := 0 }

/-- Argument passed as `data` to `StorageStrategy.save(data, filepath)`:
either a bare string or a list of scraped records. -/
inductive SaveData where
  | str (s : String)
  | records (rs : List ScrapedProduct)
deriving DecidableEq, Repr

/-- Observable outcome of a successful `/scrape` request (source lines 150-157):
the two arguments of the `save` call, the notification message, and the
response payload. -/
structure ScrapeOutcome where
  saveData : SaveData
  saveFilepath : String
  notifyMessage : String
  responseMessage : String
  products_scraped : Nat
deriving DecidableEq, Repr

/-- Source lines 150-157, `start_scraping`: run the crawl, then call
`save("scraped_data.json", "./data.json")` — note the source passes the
literal string `"scraped_data.json"` as the `data` argument — then notify
and respond.  An uncaught crawl exception aborts the request before any
save/notify happens. -/
def start_scraping (fetch : Nat → Nat → Except String (List ScrapedProduct))
    (clock : Nat → Nat) (settings : ScrapeSettings) (c0 : Cache) :
    Except String ScrapeOutcome :=
  match scrape_catalogue fetch clock settings c0 with
  | (_, some e) => Except.error e
  | (st, none) =>
    Except.ok
      { saveData := SaveData.str "scraped_data.json"
        saveFilepath := "./data.json"
        notifyMessage :=
          "Scraping complete. " ++ toString st.scraped_data.length ++ " products scraped."
        responseMessage := "Scraping completed successfully."
        products_scraped := st.scraped_data.length }

deriving instance DecidableEq for Except

/-! ### Retry-loop lemmas -/

/-- The retry loop performs at most `retries` further calls. -/
theorem retryAux_calls_le (fetch : Nat → Except String (List ScrapedProduct)) :
    ∀ (r calls : Nat) (p : List ScrapedProduct), (retryAux fetch r calls p).2 ≤ calls + r := by
  intro r
  induction r with
  | zero => intro calls p; simp [retryAux]
  | succ n ih =>
    intro calls p
    simp only [retryAux]
    cases h : fetch calls with
    | error e => simp
    | ok products =>
      cases he : products.isEmpty with
      | true =>
        simp only [he, if_true]
        have := ih (calls + 1) products
        omega
      | false => simp [he]

/-- If the first `j` calls return empty and call `j` returns non-empty `l`,
the loop stops right there: `j + 1` calls, result `l`. -/
theorem retryAux_stops_nonempty (fetch : Nat → Except String (List ScrapedProduct)) :
    ∀ (j r calls : Nat) (p l : List ScrapedProduct), j < r →
      (∀ i, i < j → fetch (calls + i) = Except.ok []) →
      fetch (calls + j) = Except.ok l → l ≠ [] →
      retryAux fetch r calls p = (Except.ok l, calls + j + 1) := by
  intro j
  induction j with
  | zero =>
    intro r calls p l hr hemp hj hl
    cases r with
    | zero => omega
    | succ n =>
      have hl' : l.isEmpty = false := by
        cases l with
        | nil => exact absurd rfl hl
        | cons a t => rfl
      simp only [retryAux, Nat.add_zero] at hj ⊢
      rw [hj]
      simp [hl']
  | succ j ih =>
    intro r calls p l hr hemp hj hl
    cases r with
    | zero => omega
    | succ n =>
      have h0 : fetch calls = Except.ok [] := by
        have := hemp 0 (Nat.succ_pos j)
        simpa using this
      simp only [retryAux]
      rw [h0]
      simp only [List.isEmpty_nil, if_true]
      have hemp' : ∀ i, i < j → fetch (calls + 1 + i) = Except.ok [] := by
        intro i hi
        have := hemp (i + 1) (by omega)
        rwa [show calls + (i + 1) = calls + 1 + i by omega] at this
      have hj' : fetch (calls + 1 + j) = Except.ok l := by
        rwa [show calls + (j + 1) = calls + 1 + j by omega] at hj
      have := ih n (calls + 1) [] l (by omega) hemp' hj' hl
      rw [this]
      congr 1
      omega

/-- If every one of the `r` available calls returns empty, the loop makes all
`r` calls and resolves to the empty list. -/
theorem retryAux_exhaust (fetch : Nat → Except String (List ScrapedProduct)) :
    ∀ (r calls : Nat), (∀ i, i < r → fetch (calls + i) = Except.ok []) →
      retryAux fetch r calls [] = (Except.ok [], calls + r) := by
  intro r
  induction r with
  | zero => intro calls _; simp [retryAux]
  | succ n ih =>
    intro calls hemp
    have h0 : fetch calls = Except.ok [] := by simpa using hemp 0 (Nat.succ_pos n)
    simp only [retryAux]
    rw [h0]
    simp only [List.isEmpty_nil, if_true]
    have hemp' : ∀ i, i < n → fetch (calls + 1 + i) = Except.ok [] := by
      intro i hi
      have := hemp (i + 1) (by omega)
      rwa [show calls + (i + 1) = calls + 1 + i by omega] at this
    rw [ih (calls + 1) hemp']
    congr 1
    omega

/-- A raised transport error at call `j` (after `j` empty calls) aborts the
loop at once: `j + 1` calls were made and the error is the loop's outcome. -/
theorem retryAux_error (fetch : Nat → Except String (List ScrapedProduct)) (e : String) :
    ∀ (j r calls : Nat) (p : List ScrapedProduct), j < r →
      (∀ i, i < j → fetch (calls + i) = Except.ok []) →
      fetch (calls + j) = Except.error e →
      retryAux fetch r calls p = (Except.error e, calls + j + 1) := by
  intro j
  induction j with
  | zero =>
    intro r calls p hr hemp hj
    cases r with
    | zero => omega
    | succ n =>
      simp only [retryAux, Nat.add_zero] at hj ⊢
      rw [hj]
  | succ j ih =>
    intro r calls p hr hemp hj
    cases r with
    | zero => omega
    | succ n =>
      have h0 : fetch calls = Except.ok [] := by simpa using hemp 0 (Nat.succ_pos j)
      simp only [retryAux]
      rw [h0]
      simp only [List.isEmpty_nil, if_true]
      have hemp' : ∀ i, i < j → fetch (calls + 1 + i) = Except.ok [] := by
        intro i hi
        have := hemp (i + 1) (by omega)
        rwa [show calls + (i + 1) = calls + 1 + i by omega] at this
      have hj' : fetch (calls + 1 + j) = Except.error e := by
        rwa [show calls + (j + 1) = calls + 1 + j by omega] at hj
      rw [ih n (calls + 1) [] (by omega) hemp' hj']
      congr 1
      omega

/-- Claim C6: the per-page retry loop calls the page fetcher at most 3 times
and stops as soon as a call returns a non-empty result; a fetcher returning
`[]`, `[]`, then a non-empty `l` is called exactly 3 times with result `l`,
and a fetcher whose first 3 results are all `[]` is called exactly 3 times
with result `[]`. -/
theorem retry_at_most_three_and_stops_on_nonempty
    (fetch : Nat → Except String (List ScrapedProduct)) :
    (retryLoop fetch).2 ≤ 3 ∧
    (∀ (j : Nat) (l : List ScrapedProduct), j < 3 →
      (∀ i, i < j → fetch i = Except.ok []) → fetch j = Except.ok l → l ≠ [] →
      retryLoop fetch = (Except.ok l, j + 1)) ∧
    ((∀ i, i < 3 → fetch i = Except.ok []) → retryLoop fetch = (Except.ok [], 3)) := by
  refine ⟨?_, ?_, ?_⟩
  · simpa using retryAux_calls_le fetch 3 0 []
  · intro j l hj hemp hjok hl
    have := retryAux_stops_nonempty fetch j 3 0 [] l hj (by simpa using hemp) (by simpa using hjok) hl
    simpa using this
  · intro hemp
    simpa using retryAux_exhaust fetch 3 0 (by simpa using hemp)

/-- Witness for C6 at the two concrete fetchers named by the claim. -/
theorem retry_at_most_three_and_stops_on_nonempty_witness :
    retryLoop (fun i => Except.ok (if i < 2 then ([] : List ScrapedProduct) else [⟨"A", "1", "u"⟩]))
        = (Except.ok [⟨"A", "1", "u"⟩], 3) ∧
    retryLoop (fun _ => Except.ok ([] : List ScrapedProduct)) = (Except.ok [], 3) :=
  ⟨(retry_at_most_three_and_stops_on_nonempty _).2.1 2 [⟨"A", "1", "u"⟩] (by decide)
      (fun i hi => by simp [hi]) (by simp) (by simp),
   (retry_at_most_three_and_stops_on_nonempty _).2.2 (fun i _ => rfl)⟩

/-! ### Crawl-loop lemmas -/

/-- Processing records never touches the ghost request log. -/
theorem foldl_processProduct_visitedPages (clock : Nat → Nat) :
    ∀ (l : List ScrapedProduct) (st : CrawlState),
      (l.foldl (processProduct clock) st).visitedPages = st.visitedPages := by
  intro l
  induction l with
  | nil => intro st; rfl
  | cons a t ih =>
    intro st
    rw [List.foldl_cons, ih]
    unfold processProduct
    split <;> rfl

/-- At page 10 the `while page < 10` guard fails and the crawl returns. -/
theorem crawlAux_at_ten (fetch : Nat → Nat → Except String (List ScrapedProduct))
    (clock : Nat → Nat) (settings : ScrapeSettings) :
    ∀ (fuel : Nat) (st : CrawlState), crawlAux fetch clock settings fuel 10 st = (st, none) := by
  intro fuel st
  cases fuel with
  | zero => rfl
  | succ n => simp [crawlAux]

/-- When the `max_pages` guard fires at the current page, the crawl returns
without requesting the page. -/
theorem crawlAux_guard_stop (fetch : Nat → Nat → Except String (List ScrapedProduct))
    (clock : Nat → Nat) (settings : ScrapeSettings) (page : Nat)
    (hp : page < 10) (hg : maxPagesStop settings.max_pages page = true) :
    ∀ (fuel : Nat) (st : CrawlState), 0 < fuel →
      crawlAux fetch clock settings fuel page st = (st, none) := by
  intro fuel st hfuel
  cases fuel with
  | zero => omega
  | succ n => simp [crawlAux, hp, hg]

/-- Running the crawl over pages that all fetch non-empty on the first attempt:
if the `max_pages` guard stays silent below `k`, the crawl from `page ≤ k`
reaches page `k` having logged exactly one request per page in order. -/
theorem crawlAux_runs_to (fetch : Nat → Nat → Except String (List ScrapedProduct))
    (clock : Nat → Nat) (settings : ScrapeSettings) (k : Nat)
    (hpre : ∀ p a, p < k → ∃ l, l ≠ [] ∧ fetch p a = Except.ok l)
    (hguard : ∀ p, p < k → maxPagesStop settings.max_pages p = false) (hk : k ≤ 10) :
    ∀ (fuel page : Nat) (st : CrawlState), 10 ≤ page + fuel → page ≤ k →
      ∃ st', crawlAux fetch clock settings fuel page st =
          crawlAux fetch clock settings (fuel - (k - page)) k st' ∧
        st'.visitedPages = st.visitedPages ++ List.range' page (k - page) := by
  intro fuel
  induction fuel with
  | zero =>
    intro page st hfuel hpk
    have hpage : page = k := by omega
    subst hpage
    exact ⟨st, by simp, by simp⟩
  | succ n ih =>
    intro page st hfuel hpk
    rcases Nat.eq_or_lt_of_le hpk with hpage | hlt
    · subst hpage
      exact ⟨st, by simp, by simp⟩
    · have hp10 : page < 10 := by omega
      obtain ⟨l, hl, hfetch⟩ := hpre page 0 hlt
      have hr : retryAux (fetch page) 3 0 [] = (Except.ok l, 1) := by
        simpa using retryAux_stops_nonempty (fetch page) 0 3 0 [] l (by omega)
          (fun i hi => absurd hi (Nat.not_lt_zero i)) (by simpa using hfetch) hl
      have hle : l.isEmpty = false := by
        cases l with
        | nil => exact absurd rfl hl
        | cons a t => rfl
      have step : crawlAux fetch clock settings (n + 1) page st =
          crawlAux fetch clock settings n (page + 1)
            (l.foldl (processProduct clock)
              { st with visitedPages := st.visitedPages ++ List.replicate 1 page }) := by
        simp [crawlAux, hp10, hguard page hlt, hr, hle]
      obtain ⟨st', hrec, hvis⟩ := ih (page + 1)
        (l.foldl (processProduct clock)
          { st with visitedPages := st.visitedPages ++ List.replicate 1 page })
        (by omega) (by omega)
      refine ⟨st', ?_, ?_⟩
      · rw [step, hrec]
        congr 1
        omega
      · rw [hvis, foldl_processProduct_visitedPages]
        have hd : k - page = (k - (page + 1)) + 1 := by omega
        rw [hd]
        simp [List.range'_succ]

/-! ### Pagination claims -/

/-- Counterexample to claim C3: with `max_pages` unset and every page fetching
non-empty data on every attempt, the crawl requests pages 1 through 9 only —
page 10 is never requested, contradicting the claim that pages 1 through 10
are each requested exactly once. -/
theorem page_ten_never_requested :
    (scrape_catalogue (fun _ _ => Except.ok [⟨"A", "1", "u"⟩]) (fun _ => 0) {} []).1.visitedPages
        = [1, 2, 3, 4, 5, 6, 7, 8, 9] ∧
    10 ∉ [1, 2, 3, 4, 5, 6, 7, 8, 9] := by
  constructor
  · decide
  · decide

/-- Claim C3 as amended: regardless of `max_pages` — unset, or set to any
value of at least 9 — the crawler never advances past page 9
(`while page < 10` admits pages 1..9): when every page yields a non-empty
result, each of pages 1 through 9 is requested exactly once, in order, the
crawl ends without error, and page 10 is never requested. -/
theorem hard_bound_stops_after_page_nine
    (fetch : Nat → Nat → Except String (List ScrapedProduct)) (clock : Nat → Nat) (c0 : Cache)
    (settings : ScrapeSettings)
    (hmp : settings.max_pages = none ∨ ∃ m : Int, settings.max_pages = some m ∧ 9 ≤ m)
    (hpre : ∀ p a, ∃ l, l ≠ [] ∧ fetch p a = Except.ok l) :
    (scrape_catalogue fetch clock settings c0).1.visitedPages = [1, 2, 3, 4, 5, 6, 7, 8, 9] ∧
    (scrape_catalogue fetch clock settings c0).2 = none ∧
    10 ∉ (scrape_catalogue fetch clock settings c0).1.visitedPages := by
  have hguard : ∀ p, p < 10 → maxPagesStop settings.max_pages p = false := by
    intro p hp
    rcases hmp with h | ⟨m, h, hm⟩
    · rw [h]; rfl
    · rw [h]
      simp only [maxPagesStop, decide_eq_false_iff_not, not_and, not_lt]
      intro _
      have hp9 : (p : Int) ≤ 9 := by exact_mod_cast Nat.lt_succ_iff.mp hp
      omega
  obtain ⟨st', hrun, hvis⟩ := crawlAux_runs_to fetch clock settings 10
    (fun p a _ => hpre p a) hguard (le_refl 10) 10 1
    { scraped_data := [], cache := c0, visitedPages := [], tick := 0 } (by omega) (by omega)
  have hfin : scrape_catalogue fetch clock settings c0 = (st', none) := by
    rw [scrape_catalogue, hrun, crawlAux_at_ten]
  have hvis' : st'.visitedPages = [1, 2, 3, 4, 5, 6, 7, 8, 9] := by
    rw [hvis]; rfl
  rw [hfin]
  exact ⟨hvis', rfl, by rw [hvis']; decide⟩

/-- Witness for the amended C3 at a concrete always-non-empty fetcher, once
with `max_pages = 50` (set, large) and once with `max_pages` unset. -/
theorem hard_bound_stops_after_page_nine_witness :
    ((scrape_catalogue (fun _ _ => Except.ok [⟨"B", "2", "v"⟩]) (fun _ => 0)
          { max_pages := some 50, proxy := none } []).1.visitedPages
        = [1, 2, 3, 4, 5, 6, 7, 8, 9] ∧
      (scrape_catalogue (fun _ _ => Except.ok [⟨"B", "2", "v"⟩]) (fun _ => 0)
          { max_pages := some 50, proxy := none } []).2 = none ∧
      10 ∉ (scrape_catalogue (fun _ _ => Except.ok [⟨"B", "2", "v"⟩]) (fun _ => 0)
          { max_pages := some 50, proxy := none } []).1.visitedPages) ∧
    ((scrape_catalogue (fun _ _ => Except.ok [⟨"B", "2", "v"⟩]) (fun _ => 0) {} []).1.visitedPages
        = [1, 2, 3, 4, 5, 6, 7, 8, 9] ∧
      (scrape_catalogue (fun _ _ => Except.ok [⟨"B", "2", "v"⟩]) (fun _ => 0) {} []).2 = none ∧
      10 ∉ (scrape_catalogue (fun _ _ => Except.ok [⟨"B", "2", "v"⟩]) (fun _ => 0)
          {} []).1.visitedPages) :=
  ⟨hard_bound_stops_after_page_nine _ _ _ { max_pages := some 50, proxy := none }
      (Or.inr ⟨50, rfl, by decide⟩) (fun _ _ => ⟨[⟨"B", "2", "v"⟩], by simp, rfl⟩),
    hard_bound_stops_after_page_nine _ _ _ {} (Or.inl rfl)
      (fun _ _ => ⟨[⟨"B", "2", "v"⟩], by simp, rfl⟩)⟩

/-- Claim C9: with `max_pages = m` for `1 ≤ m ≤ 9` (any positive value below
the hard page cap) and data available on every page, the crawler requests
exactly pages 1 through m (`List.range' 1 m`), once each in order, never
requests page `m + 1`, and ends without error. -/
theorem max_pages_bounds_visited_pages
    (fetch : Nat → Nat → Except String (List ScrapedProduct)) (clock : Nat → Nat) (c0 : Cache)
    (proxy : Option String) (m : Nat) (h1 : 1 ≤ m) (h9 : m ≤ 9)
    (hpre : ∀ p a, ∃ l, l ≠ [] ∧ fetch p a = Except.ok l) :
    (scrape_catalogue fetch clock { max_pages := some (m : Int), proxy := proxy } c0).1.visitedPages
        = List.range' 1 m ∧
    (m + 1) ∉ List.range' 1 m ∧
    (scrape_catalogue fetch clock { max_pages := some (m : Int), proxy := proxy } c0).2 = none := by
  set settings : ScrapeSettings := { max_pages := some (m : Int), proxy := proxy } with hs
  have hguard : ∀ p, p < m + 1 → maxPagesStop settings.max_pages p = false := by
    intro p hp
    simp only [hs, maxPagesStop, decide_eq_false_iff_not, not_and, not_lt]
    intro _
    exact_mod_cast Nat.lt_succ_iff.mp hp
  obtain ⟨st', hrun, hvis⟩ := crawlAux_runs_to fetch clock settings (m + 1)
    (fun p a _ => hpre p a) hguard (by omega) 10 1
    { scraped_data := [], cache := c0, visitedPages := [], tick := 0 } (by omega) (by omega)
  have hstop : crawlAux fetch clock settings (10 - (m + 1 - 1)) (m + 1) st' = (st', none) := by
    rcases Nat.lt_or_ge (m + 1) 10 with hlt | hge
    · have hg : maxPagesStop settings.max_pages (m + 1) = true := by
        simp only [hs, maxPagesStop, decide_eq_true_eq]
        constructor
        · exact_mod_cast Nat.pos_iff_ne_zero.mp h1
        · exact_mod_cast Nat.lt_succ_self m
      exact crawlAux_guard_stop fetch clock settings (m + 1) hlt hg _ st' (by omega)
    · have : m + 1 = 10 := by omega
      rw [this]
      exact crawlAux_at_ten fetch clock settings _ st'
  have hfin : scrape_catalogue fetch clock settings c0 = (st', none) := by
    rw [scrape_catalogue, hrun, hstop]
  have hvis' : st'.visitedPages = List.range' 1 m := by
    rw [hvis]; simp
  rw [hfin]
  refine ⟨hvis', ?_, rfl⟩
  intro hmem
  rw [List.mem_range'_1] at hmem
  omega

/-- Witness for C9 at `max_pages = 2`: pages 1 and 2 are visited, page 3 is not. -/
theorem max_pages_bounds_visited_pages_witness :
    (scrape_catalogue (fun _ _ => Except.ok [⟨"A", "1", "u"⟩]) (fun _ => 0)
        { max_pages := some (2 : Int), proxy := none } []).1.visitedPages = List.range' 1 2 ∧
    (2 + 1) ∉ List.range' 1 2 ∧
    (scrape_catalogue (fun _ _ => Except.ok [⟨"A", "1", "u"⟩]) (fun _ => 0)
        { max_pages := some (2 : Int), proxy := none } []).2 = none :=
  max_pages_bounds_visited_pages _ _ _ none 2 (by decide) (by decide)
    (fun _ _ => ⟨[⟨"A", "1", "u"⟩], by simp, rfl⟩)

/-- Claim C10: `max_pages = 0` is falsy in the source's guard, so a crawl with
`max_pages = 0` is indistinguishable from one with `max_pages` unset — it does
not stop at zero pages but runs until the empty-page signal, a transport
error, or the hard page cap, whatever the fetched data. -/
theorem max_pages_zero_same_as_unset
    (fetch : Nat → Nat → Except String (List ScrapedProduct)) (clock : Nat → Nat) (c0 : Cache)
    (pr pr' : Option String) :
    scrape_catalogue fetch clock { max_pages := some 0, proxy := pr } c0 =
      scrape_catalogue fetch clock { max_pages := none, proxy := pr' } c0 := by
  have key : ∀ (fuel page : Nat) (st : CrawlState),
      crawlAux fetch clock { max_pages := some 0, proxy := pr } fuel page st =
        crawlAux fetch clock { max_pages := none, proxy := pr' } fuel page st := by
    intro fuel
    induction fuel with
    | zero => intro page st; rfl
    | succ n ih =>
      intro page st
      by_cases hp : page < 10
      · have h0 : maxPagesStop (some (0 : Int)) page = false := rfl
        have h1 : maxPagesStop none page = false := rfl
        simp only [crawlAux, if_pos hp, h0, h1, Bool.false_eq_true, if_false]
        rcases hr : retryAux (fetch page) 3 0 [] with ⟨res, calls⟩
        cases res with
        | error e => rfl
        | ok products =>
          simp only []
          by_cases he : products.isEmpty
          · simp [he]
          · simp [he, ih]
      · simp only [crawlAux, if_neg hp]
  exact key 10 1 _

/-- Claim C7: a transport failure raised by the page fetch is not caught.
In the retry loop, an error at call `j` (after `j` fetched-but-empty calls)
ends the loop at once with that error and no further attempt — retries are
consumed only by fetched-but-empty results.  In the crawl, an error on the
first request aborts the whole crawl immediately: one request was made, no
record accumulated, and the error is surfaced. -/
theorem fetch_error_propagates_uncaught
    (fetch : Nat → Nat → Except String (List ScrapedProduct)) (clock : Nat → Nat) (c0 : Cache)
    (e : String) (hf : fetch 1 0 = Except.error e) :
    (∀ (f : Nat → Except String (List ScrapedProduct)) (j : Nat), j < 3 →
      (∀ i, i < j → f i = Except.ok []) → f j = Except.error e →
      retryLoop f = (Except.error e, j + 1)) ∧
    scrape_catalogue fetch clock {} c0 =
      ({ scraped_data := [], cache := c0, visitedPages := [1], tick := 0 }, some e) := by
  constructor
  · intro f j hj hemp hjerr
    have := retryAux_error f e j 3 0 [] hj (by simpa using hemp) (by simpa using hjerr)
    simpa using this
  · have hr : retryAux (fetch 1) 3 0 [] = (Except.error e, 1) := by
      simpa using retryAux_error (fetch 1) e 0 3 0 [] (by omega)
        (fun i hi => absurd hi (Nat.not_lt_zero i)) (by simpa using hf)
    rw [scrape_catalogue]
    simp [crawlAux, hr, maxPagesStop]

/-- Witness for C7: a fetcher that always raises aborts the crawl after one
request with the error surfaced. -/
theorem fetch_error_propagates_uncaught_witness :
    scrape_catalogue (fun _ _ => Except.error "boom") (fun _ => 0) {} [] =
      ({ scraped_data := [], cache := [], visitedPages := [1], tick := 0 }, some "boom") :=
  (fetch_error_propagates_uncaught _ _ _ "boom" rfl).2

/-! ### Cache / acceptance claims -/

/-- Counterexample to claim C1: the cache holds `"product:X" ↦ "10"` expiring
at time 4600 (written at 1000 with the 3600s TTL); at time 2000 a crawl
re-sights `{name := "X", price := "10"}` on page 1.  The record is rejected —
and, contrary to the claim, the cache entry is not touched: its expiry stays
4600 instead of the fresh 2000 + CACHE_EXPIRY = 5600, because the source only
calls `cache.set` inside the acceptance branch (lines 138-140). -/
theorem unchanged_price_does_not_refresh_ttl :
    (scrape_catalogue (fun p _ => Except.ok (if p = 1 then [⟨"X", "10", "u"⟩] else []))
        (fun _ => 2000) {} [("product:X", "10", 4600)]).1.cache
      = [("product:X", "10", 4600)] ∧
    (scrape_catalogue (fun p _ => Except.ok (if p = 1 then [⟨"X", "10", "u"⟩] else []))
        (fun _ => 2000) {} [("product:X", "10", 4600)]).1.scraped_data = [] ∧
    (4600 : Nat) ≠ 2000 + CACHE_EXPIRY :=
  ⟨by decide, by decide, by decide⟩

/-- Claim C1 as amended: processing a fetched record writes the cache only
when the record is accepted.  Either the record is accepted (appended to
`scraped_data`) and the cache entry is overwritten with its price and a fresh
TTL armed at the processing moment, or the cached price equals the record's
price, in which case the record is rejected and the cache — entry, value and
expiry alike — is left completely unchanged. -/
theorem cache_write_only_on_accept (clock : Nat → Nat) (st : CrawlState)
    (product : ScrapedProduct) :
    ((processProduct clock st product).scraped_data = st.scraped_data ++ [product] ∧
      (processProduct clock st product).cache =
        cacheSet st.cache ("product:" ++ product.name) product.price CACHE_EXPIRY
          (clock st.tick)) ∨
    (cacheGet st.cache ("product:" ++ product.name) (clock st.tick) = some product.price ∧
      (processProduct clock st product).scraped_data = st.scraped_data ∧
      (processProduct clock st product).cache = st.cache) := by
  unfold processProduct
  rcases h : cacheGet st.cache ("product:" ++ product.name) (clock st.tick) with _ | v
  · left
    simp [h]
  · by_cases hv : v = product.price
    · right
      subst hv
      simp [h]
    · left
      simp [h, hv]

/-- Claim C4: a fetched record is appended to the crawl result iff, at the
moment it is processed, the cache has no (unexpired) entry for
`"product:" ++ name` or the cached value differs from the record's price. -/
theorem accepted_iff_absent_or_changed (clock : Nat → Nat) (st : CrawlState)
    (product : ScrapedProduct) :
    (processProduct clock st product).scraped_data = st.scraped_data ++ [product] ↔
      (cacheGet st.cache ("product:" ++ product.name) (clock st.tick) = none ∨
        ∃ v, cacheGet st.cache ("product:" ++ product.name) (clock st.tick) = some v ∧
          v ≠ product.price) := by
  unfold processProduct
  rcases h : cacheGet st.cache ("product:" ++ product.name) (clock st.tick) with _ | v
  · simp [h]
  · by_cases hv : v = product.price
    · subst hv
      simp [h]
    · simp [h, hv]

/-! ### Page-parsing claim -/

/-- Claim C5: from facet lists of `t` titles, `p` prices and `i` image URLs,
`scrape_page` builds exactly `min t (min p i)` records, the `k`-th pairing the
`k`-th title with the `k`-th price and the `k`-th image. -/
theorem scrape_page_min_count_pairing (titles prices images : List String) :
    (scrape_page titles prices images).length =
      min titles.length (min prices.length images.length) ∧
    ∀ (k : Nat) (a b c : String),
      titles[k]? = some a → prices[k]? = some b → images[k]? = some c →
      (scrape_page titles prices images)[k]? = some ⟨a, b, c⟩ := by
  constructor
  · simp only [scrape_page, List.length_map, List.length_zip]
    omega
  · intro k a b c ht hp hi
    have hz : ((titles.zip prices).zip images)[k]? = some ((a, b), c) := by
      rw [List.getElem?_zip_eq_some]
      exact ⟨by rw [List.getElem?_zip_eq_some]; exact ⟨ht, hp⟩, hi⟩
    simp [scrape_page, List.getElem?_map, hz]

/-- Witness for C5 at one-element facet lists. -/
theorem scrape_page_min_count_pairing_witness :
    (scrape_page ["t1"] ["p1"] ["i1"]).length = min 1 (min 1 1) ∧
    (scrape_page ["t1"] ["p1"] ["i1"])[0]? = some ⟨"t1", "p1", "i1"⟩ :=
  ⟨(scrape_page_min_count_pairing ["t1"] ["p1"] ["i1"]).1,
    (scrape_page_min_count_pairing ["t1"] ["p1"] ["i1"]).2 0 "t1" "p1" "i1" rfl rfl rfl⟩

/-! ### Persistence claim -/

/-- Claim C2 fails on the code: after a successful crawl that accepted one
record, `start_scraping` invokes `save` with the literal string
`"scraped_data.json"` as the data argument (and `"./data.json"` as the
filepath) — not with the accumulated `scraped_data`.  The scraped records are
never handed to the persistence sink. -/
theorem save_receives_filename_string_not_records :
    (scrape_catalogue (fun p _ => Except.ok (if p = 1 then [⟨"A", "1", "u"⟩] else []))
        (fun _ => 0) {} []).1.scraped_data = [⟨"A", "1", "u"⟩] ∧
    start_scraping (fun p _ => Except.ok (if p = 1 then [⟨"A", "1", "u"⟩] else []))
        (fun _ => 0) {} [] =
      Except.ok ⟨SaveData.str "scraped_data.json", "./data.json",
        "Scraping complete. 1 products scraped.", "Scraping completed successfully.", 1⟩ ∧
    SaveData.str "scraped_data.json" ≠ SaveData.records [⟨"A", "1", "u"⟩] :=
  ⟨by decide, by decide, by decide⟩
